import Mathlib

/-!
Shallow embedding of the relation-extraction data-preparation pipeline
(`load_data.py` and the `label_to_num` helper of `train.py`).

Python strings are modelled as `List Char`; Python slice/index semantics
(including negative indices and clamping) are modelled explicitly.
Python exceptions are modelled by `Except PyErr`; local variables of
`load_data` that persist across loop iterations are threaded explicitly
as state (`RowVars`), with `none` standing for a not-yet-assigned local.
-/

/-- Python exception kinds that the embedded code can raise.
`valueError` models `int()` failing, `indexError` models out-of-range
indexing, `nameError` models reading a never-assigned local
(`UnboundLocalError`), `keyError` models a failed `dict` lookup. -/
inductive PyErr where
  | valueError
  | indexError
  | nameError
  | keyError
  deriving DecidableEq, Repr

deriving instance DecidableEq for Except

/-- Normalization of one slice endpoint, as Python does for `s[a:b]` on a
string of length `n`: negative indices count from the end, and the result
is clamped into `[0, n]`. -/
def pyIdx (n : Nat) (i : Int) : Nat :=
  (min (max (if i < 0 then i + n else i) 0) (n : Int)).toNat

/-- Python `s[:b]`. -/
def pyTake (s : List Char) (b : Int) : List Char :=
  s.take (pyIdx s.length b)

/-- Python `s[a:]`. -/
def pyDrop (s : List Char) (a : Int) : List Char :=
  s.drop (pyIdx s.length a)

/-- Python `s[a:b]`. -/
def pySlice (s : List Char) (a b : Int) : List Char :=
  (s.take (pyIdx s.length b)).drop (pyIdx s.length a)

/-- Python `l[i]` for a nonnegative index: raises `IndexError` when out of
range. -/
def pyGet (l : List (List Char)) (i : Nat) : Except PyErr (List Char) :=
  if h : i < l.length then .ok (l.get ⟨i, h⟩) else .error .indexError

/-- Python `str.strip()`: remove leading and trailing whitespace. -/
def pyStrip (s : List Char) : List Char :=
  ((s.dropWhile Char.isWhitespace).reverse.dropWhile Char.isWhitespace).reverse

/-- Value of a list of decimal digit characters. -/
def digitsToNat (ds : List Char) : Nat :=
  ds.foldl (fun n c => n * 10 + (c.toNat - 48)) 0

/-- Python `int(s)` on an already-stripped string: an optional sign
followed by a nonempty run of digits; anything else raises `ValueError`.
(Underscore digit grouping is not modelled; the data format never uses
it.) -/
def pyIntParse (s : List Char) : Except PyErr Int :=
  match s with
  | '-' :: rest =>
      if rest ≠ [] ∧ rest.all Char.isDigit then .ok (-(digitsToNat rest : Int))
      else .error .valueError
  | '+' :: rest =>
      if rest ≠ [] ∧ rest.all Char.isDigit then .ok (digitsToNat rest : Int)
      else .error .valueError
  | _ =>
      if s ≠ [] ∧ s.all Char.isDigit then .ok (digitsToNat s : Int)
      else .error .valueError

/-- Single-quote character, written by code point to keep the embedding
free of quote-mark character literals. -/
def quoteChar : Char := Char.ofNat 39

/-- The `[SUB]` marker. -/
def subOpen : List Char := ("[SUB]").data

/-- The `[/SUB]` marker. -/
def subClose : List Char := ("[/SUB]").data

/-- The `[OBJ]` marker. -/
def objOpen : List Char := ("[OBJ]").data

/-- The `[/OBJ]` marker. -/
def objClose : List Char := ("[/OBJ]").data

/-- The literal key `start_idx` scanned for in the entity fields. -/
def startIdxKey : List Char := ("start_idx").data

/-- The literal key `end_idx` scanned for in the entity fields. -/
def endIdxKey : List Char := ("end_idx").data

/-- Python `l[-k]` on a list of strings: raises `IndexError` when the list
is shorter than `k`. -/
def pyNegGet (l : List (List Char)) (k : Nat) : Except PyErr (List Char) :=
  if h : k ≤ l.length ∧ 1 ≤ k then .ok (l.get ⟨l.length - k, by omega⟩)
  else .error .indexError

/-- `x[1:-1].split(sep1)[-1].split(sep2)[-2]` — the entity-type extraction
of `load_data.py` lines 32–33, with `sep1 = ':'` and `sep2 = '\''`. -/
def parseType (x : List Char) : Except PyErr (List Char) := do
  let inner := pySlice x 1 (-1)
  let last ← pyNegGet (inner.splitOn ':') 1
  pyNegGet (last.splitOn quoteChar) 2

/-- The four locals `sub_start`, `sub_end`, `obj_start`, `obj_end` of
`load_data`. They are assigned inside the scanning loop and persist across
rows of the dataset; `none` models a local that has never been assigned. -/
structure RowVars where
  sub_start : Option Int
  sub_end : Option Int
  obj_start : Option Int
  obj_end : Option Int
  deriving DecidableEq, Repr

/-- The state of the four locals before the first row is processed. -/
def initVars : RowVars := ⟨none, none, none, none⟩

/-- `int(s[k:].split(',')[0].strip())` — the offset extraction used at
each key-marker match in `load_data.py` lines 37, 39, 42, 44. -/
def extractInt (s : List Char) (k : Nat) : Except PyErr Int :=
  pyIntParse (pyStrip (((pyDrop s (k : Int)).splitOn ',').headD []))

/-- Line 36–37: `if x[idx_i : idx_i+9] == 'start_idx'` assigns
`sub_start`. -/
def scanSubStart (x : List Char) (st : RowVars) (i : Nat) : Except PyErr RowVars :=
  if pySlice x (i : Int) ((i : Int) + 9) = startIdxKey then do
    let v ← extractInt x (i + 12); pure { st with sub_start := some v }
  else pure st

/-- Line 38–39: `if x[idx_i : idx_i+7] == 'end_idx'` assigns `sub_end`. -/
def scanSubEnd (x : List Char) (st : RowVars) (i : Nat) : Except PyErr RowVars :=
  if pySlice x (i : Int) ((i : Int) + 7) = endIdxKey then do
    let v ← extractInt x (i + 10); pure { st with sub_end := some v }
  else pure st

/-- Line 41–42: the `start_idx` test on the object field assigns
`obj_start`. -/
def scanObjStart (y : List Char) (st : RowVars) (i : Nat) : Except PyErr RowVars :=
  if pySlice y (i : Int) ((i : Int) + 9) = startIdxKey then do
    let v ← extractInt y (i + 12); pure { st with obj_start := some v }
  else pure st

/-- Line 43–44: the `end_idx` test on the object field assigns
`obj_end`. -/
def scanObjEnd (y : List Char) (st : RowVars) (i : Nat) : Except PyErr RowVars :=
  if pySlice y (i : Int) ((i : Int) + 7) = endIdxKey then do
    let v ← extractInt y (i + 10); pure { st with obj_end := some v }
  else pure st

/-- One iteration of the scanning loop of `load_data.py` lines 35–44 at
position `i`: the four `if` tests run in order on the subject field `x`
and the object field `y`, each match assigning the corresponding local. -/
def scanAt (x y : List Char) (st : RowVars) (i : Nat) : Except PyErr RowVars := do
  let st ← scanSubStart x st i
  let st ← scanSubEnd x st i
  let st ← scanObjStart y st i
  scanObjEnd y st i

/-- The scanning loop `for idx_i in range(len(x))` of `load_data.py`
lines 35–44: note the range is the length of the SUBJECT field `x`, even
though the loop also tests the object field `y`. -/
def scanRow (x y : List Char) (st : RowVars) : Except PyErr RowVars :=
  (List.range x.length).foldlM (scanAt x y) st

/-- Reading one of the loop locals: raises the unbound-local error when it
has never been assigned. -/
def readVar (v : Option Int) : Except PyErr Int :=
  match v with
  | some n => .ok n
  | none => .error .nameError

/-- `z[:a] + mOpen + z[a:b] + mClose + z[b:]` — the shape of each of the
four sentence-rewriting assignments in `load_data.py` lines 55–56, 58–59. -/
def spliceAt (z mOpen mClose : List Char) (a b : Int) : List Char :=
  pyTake z a ++ mOpen ++ pySlice z a b ++ mClose ++ pyDrop z b

/-- The marker insertion of `load_data.py` lines 54–59: if the subject
span starts strictly first, `[SUB]`/`[/SUB]` are spliced in at the
subject's offsets and then `[OBJ]`/`[/OBJ]` at the object's offsets
shifted by 11; otherwise the object pair goes in first and the subject
offsets are shifted by 11. -/
def insertMarkers (z : List Char) (s0 s1 o0 o1 : Int) : List Char :=
  if s0 < o0 then
    spliceAt (spliceAt z subOpen subClose s0 (s1 + 1)) objOpen objClose (o0 + 11) (o1 + 12)
  else
    spliceAt (spliceAt z objOpen objClose o0 (o1 + 1)) subOpen subClose (s0 + 11) (s1 + 12)

/-- What `load_data` appends for one row: entity texts cut from the
original sentence, entity types, the offset pairs, and the marked
sentence. -/
structure Row where
  sub_entity : List Char
  obj_entity : List Char
  sub_type : List Char
  obj_type : List Char
  sub_idx : Int × Int
  obj_idx : Int × Int
  sentence : List Char
  deriving DecidableEq, Repr

/-- One iteration of the row loop of `load_data.py` lines 31–62 on
subject field `x`, object field `y` and sentence `z`, starting from the
locals' state `st` left by the previous row. -/
def processRow (st : RowVars) (x y z : List Char) : Except PyErr (RowVars × Row) := do
  let sub_typ ← parseType x
  let obj_typ ← parseType y
  let st ← scanRow x y st
  let s0 ← readVar st.sub_start
  let s1 ← readVar st.sub_end
  let o0 ← readVar st.obj_start
  let o1 ← readVar st.obj_end
  pure (st,
    { sub_entity := pySlice z s0 (s1 + 1)
      obj_entity := pySlice z o0 (o1 + 1)
      sub_type := sub_typ
      obj_type := obj_typ
      sub_idx := (s0, s1)
      obj_idx := (o0, o1)
      sentence := insertMarkers z s0 s1 o0 o1 })

/-- The row loop of `load_data`, threading the persistent locals. -/
def loadRows (st : RowVars) (rows : List (List Char × List Char × List Char)) :
    Except PyErr (List Row) :=
  match rows with
  | [] => .ok []
  | (x, y, z) :: rest => do
      let (st1, r) ← processRow st x y z
      let rs ← loadRows st1 rest
      pure (r :: rs)

/-- `load_data`: each row is `(subject_entity, object_entity, sentence)`;
the four scan locals start unassigned and persist across rows. -/
def load_data (rows : List (List Char × List Char × List Char)) : Except PyErr (List Row) :=
  loadRows initVars rows

/-- Modelled from the spec: the external subword tokenizer's
`add_special_tokens` contract (spec §4.2 and §6) — each requested token is
added to the vocabulary as an atomic entry unless it is already present.
The tokenizer implementation is an external collaborator and is not part
of this repository's sources. -/
def add_special_tokens (vocab : List (List Char)) (toks : List (List Char)) : List (List Char) :=
  toks.foldl (fun v t => if t ∈ v then v else v ++ [t]) vocab

/-- The marker-registration step of `tokenized_dataset`
(`load_data.py` lines 76–77): `add_special_tokens` applied to the four
boundary markers. -/
def register_markers (vocab : List (List Char)) : List (List Char) :=
  add_special_tokens vocab [subOpen, subClose, objOpen, objClose]

/-- The round-trip decode diagnostic of `tokenized_dataset`
(`load_data.py` lines 98–101): `for i in range(10)`, encode then decode
`dataset['sentence'][i]`. The indexing raises `IndexError` when the
dataset has fewer than 10 rows; encode/decode themselves are modelled as
total functions. -/
def decodeCheck (sentences : List (List Char)) (enc : List Char → List Nat)
    (dec : List Nat → List Char) : Except PyErr Unit :=
  (List.range 10).foldlM
    (fun _ i => do
      let s ← pyGet sentences i
      let _ := dec (enc s)
      pure ())
    ()

/-- `tokenized_dataset` (`load_data.py` lines 75–103): tokenize the batch
of sentences, run the decode diagnostic, and return the batch. The
external tokenizer's batch call is modelled by mapping its encode
function over the sentences. -/
def tokenized_dataset (sentences : List (List Char)) (enc : List Char → List Nat)
    (dec : List Nat → List Char) : Except PyErr (List (List Nat)) := do
  let batch := sentences.map enc
  let _ ← decodeCheck sentences enc dec
  pure batch

/-- Python `dict` lookup in the label-to-index table. -/
def dictLookup (table : List (List Char × Nat)) (k : List Char) : Option Nat :=
  match table with
  | [] => none
  | (k1, v) :: rest => if k = k1 then some v else dictLookup rest k

/-- `label_to_num` (`train.py` lines 80–87): look up each label string in
the pickled label-to-index mapping, in input order; a missing key raises
`KeyError` (the spec's `UnknownLabelError`). The mapping's contents are
runtime data, so the table is a parameter. -/
def label_to_num (table : List (List Char × Nat)) (labels : List (List Char)) :
    Except PyErr (List Nat) :=
  match labels with
  | [] => .ok []
  | l :: rest => do
      let n ← match dictLookup table l with
        | some n => Except.ok n
        | none => Except.error PyErr.keyError
      let ns ← label_to_num table rest
      pure (n :: ns)

lemma pyIdx_natCast (n a : Nat) : pyIdx n (a : Int) = min a n := by
  unfold pyIdx
  split <;> omega

lemma pyTake_natCast (z : List Char) (b : Nat) : pyTake z (b : Int) = z.take b := by
  unfold pyTake
  rw [pyIdx_natCast]
  rcases le_total b z.length with h | h
  · rw [Nat.min_eq_left h]
  · rw [Nat.min_eq_right h, List.take_length, List.take_of_length_le h]

lemma pyDrop_natCast (z : List Char) (a : Nat) : pyDrop z (a : Int) = z.drop a := by
  unfold pyDrop
  rw [pyIdx_natCast]
  rcases le_total a z.length with h | h
  · rw [Nat.min_eq_left h]
  · rw [Nat.min_eq_right h, List.drop_length, List.drop_eq_nil_of_le h]

lemma pySlice_natCast (z : List Char) (a b : Nat) :
    pySlice z (a : Int) (b : Int) = (z.take b).drop a := by
  unfold pySlice
  rw [pyIdx_natCast, pyIdx_natCast]
  have hb : z.take (min b z.length) = z.take b := by
    rcases le_total b z.length with h | h
    · rw [Nat.min_eq_left h]
    · rw [Nat.min_eq_right h, List.take_length, List.take_of_length_le h]
  rw [hb]
  rcases le_total a z.length with h | h
  · rw [Nat.min_eq_left h]
  · rw [Nat.min_eq_right h,
      List.drop_eq_nil_of_le (by simp [List.length_take]),
      List.drop_eq_nil_of_le (by simp [List.length_take]; omega)]

lemma subOpen_length : subOpen.length = 5 := rfl

lemma subClose_length : subClose.length = 6 := rfl

lemma objOpen_length : objOpen.length = 5 := rfl

lemma objClose_length : objClose.length = 6 := rfl

lemma spliceAt_decomp (mO mC A B C : List Char) :
    spliceAt (A ++ B ++ C) mO mC (A.length : Int) ((A.length + B.length : Nat) : Int) =
      A ++ mO ++ B ++ mC ++ C := by
  unfold spliceAt
  rw [pyTake_natCast, pyDrop_natCast, pySlice_natCast]
  have htake : (A ++ B ++ C).take (A.length + B.length) = A ++ B :=
    List.take_left' (by simp)
  have hA : (A ++ B ++ C).take A.length = A := by
    rw [List.append_assoc]
    exact List.take_left' rfl
  rw [htake, hA]
  have hdropAB : (A ++ B).drop A.length = B := List.drop_left A B
  have hdropC : (A ++ B ++ C).drop (A.length + B.length) = C :=
    List.drop_left' (by simp)
  rw [hdropAB, hdropC]

lemma take_chain (z : List Char) (m n : Nat) (h : m ≤ n) :
    z.take m ++ (z.take n).drop m = z.take n := by
  have h1 : (z.take n).take m = z.take m := by
    rw [List.take_take, Nat.min_eq_left h]
  rw [← h1]
  exact List.take_append_drop _ _

lemma insertMarkers_subFirst (A S G O T : List Char) (a b c d : Nat)
    (ha : a = A.length) (hb : b + 1 = A.length + S.length)
    (hc : c = A.length + S.length + G.length)
    (hd : d + 1 = A.length + S.length + G.length + O.length)
    (hpos : 0 < S.length + G.length) :
    insertMarkers (A ++ S ++ G ++ O ++ T) a b c d =
      A ++ subOpen ++ S ++ subClose ++ G ++ objOpen ++ O ++ objClose ++ T := by
  subst ha
  subst hc
  unfold insertMarkers
  rw [if_pos (by omega : ((A.length : Nat) : Int) < ((A.length + S.length + G.length : Nat) : Int))]
  have e2 : ((b : Int) + 1) = ((A.length + S.length : Nat) : Int) := by omega
  have hz : A ++ S ++ G ++ O ++ T = A ++ S ++ (G ++ O ++ T) := by simp [List.append_assoc]
  rw [e2, hz, spliceAt_decomp]
  have hlen : (A ++ subOpen ++ S ++ subClose ++ G).length =
      A.length + S.length + G.length + 11 := by
    simp [List.length_append, subOpen_length, subClose_length]
    omega
  have hz2 : A ++ subOpen ++ S ++ subClose ++ (G ++ O ++ T) =
      (A ++ subOpen ++ S ++ subClose ++ G) ++ O ++ T := by
    simp [List.append_assoc]
  have e3 : (((A.length + S.length + G.length : Nat) : Int) + 11) =
      (((A ++ subOpen ++ S ++ subClose ++ G).length : Nat) : Int) := by
    rw [hlen]; omega
  have e4 : ((d : Int) + 12) =
      (((A ++ subOpen ++ S ++ subClose ++ G).length + O.length : Nat) : Int) := by
    rw [hlen]; omega
  rw [hz2, e3, e4, spliceAt_decomp]

lemma insertMarkers_objFirst (A O G S T : List Char) (a b c d : Nat)
    (hc : c = A.length) (hd : d + 1 = A.length + O.length)
    (ha : a = A.length + O.length + G.length)
    (hb : b + 1 = A.length + O.length + G.length + S.length) :
    insertMarkers (A ++ O ++ G ++ S ++ T) a b c d =
      A ++ objOpen ++ O ++ objClose ++ G ++ subOpen ++ S ++ subClose ++ T := by
  subst hc
  subst ha
  unfold insertMarkers
  rw [if_neg (by omega : ¬ (((A.length + O.length + G.length : Nat) : Int) < ((A.length : Nat) : Int)))]
  have e2 : ((d : Int) + 1) = ((A.length + O.length : Nat) : Int) := by omega
  have hz : A ++ O ++ G ++ S ++ T = A ++ O ++ (G ++ S ++ T) := by simp [List.append_assoc]
  rw [e2, hz, spliceAt_decomp]
  have hlen : (A ++ objOpen ++ O ++ objClose ++ G).length =
      A.length + O.length + G.length + 11 := by
    simp [List.length_append, objOpen_length, objClose_length]
    omega
  have hz2 : A ++ objOpen ++ O ++ objClose ++ (G ++ S ++ T) =
      (A ++ objOpen ++ O ++ objClose ++ G) ++ S ++ T := by
    simp [List.append_assoc]
  have e3 : (((A.length + O.length + G.length : Nat) : Int) + 11) =
      (((A ++ objOpen ++ O ++ objClose ++ G).length : Nat) : Int) := by
    rw [hlen]; omega
  have e4 : ((b : Int) + 12) =
      (((A ++ objOpen ++ O ++ objClose ++ G).length + S.length : Nat) : Int) := by
    rw [hlen]; omega
  rw [hz2, e3, e4, spliceAt_decomp]

lemma insertMarkers_spans (z : List Char) (ns0 ns1 no0 no1 : Nat)
    (hs : ns0 ≤ ns1) (ho : no0 ≤ no1) (hsl : ns1 < z.length) (hol : no1 < z.length)
    (hdisj : ns1 < no0 ∨ no1 < ns0) :
    insertMarkers z (ns0 : Int) (ns1 : Int) (no0 : Int) (no1 : Int) =
      if ns0 < no0 then
        z.take ns0 ++ subOpen ++ (z.take (ns1 + 1)).drop ns0 ++ subClose ++
          (z.take no0).drop (ns1 + 1) ++ objOpen ++ (z.take (no1 + 1)).drop no0 ++ objClose ++
          z.drop (no1 + 1)
      else
        z.take no0 ++ objOpen ++ (z.take (no1 + 1)).drop no0 ++ objClose ++
          (z.take ns0).drop (no1 + 1) ++ subOpen ++ (z.take (ns1 + 1)).drop ns0 ++ subClose ++
          z.drop (ns1 + 1) := by
  by_cases hlt : ns0 < no0
  · have hso : ns1 < no0 := by omega
    rw [if_pos hlt]
    have h1 : z.take ns0 ++ (z.take (ns1 + 1)).drop ns0 = z.take (ns1 + 1) :=
      take_chain z ns0 (ns1 + 1) (by omega)
    have h2 : z.take (ns1 + 1) ++ (z.take no0).drop (ns1 + 1) = z.take no0 :=
      take_chain z (ns1 + 1) no0 (by omega)
    have h3 : z.take no0 ++ (z.take (no1 + 1)).drop no0 = z.take (no1 + 1) :=
      take_chain z no0 (no1 + 1) (by omega)
    have h4 : z.take (no1 + 1) ++ z.drop (no1 + 1) = z := List.take_append_drop _ _
    have hz : z = z.take ns0 ++ (z.take (ns1 + 1)).drop ns0 ++ (z.take no0).drop (ns1 + 1) ++
        (z.take (no1 + 1)).drop no0 ++ z.drop (no1 + 1) := by
      rw [h1, h2, h3, h4]
    have key := insertMarkers_subFirst (z.take ns0) ((z.take (ns1 + 1)).drop ns0)
      ((z.take no0).drop (ns1 + 1)) ((z.take (no1 + 1)).drop no0) (z.drop (no1 + 1))
      ns0 ns1 no0 no1
      (by simp [List.length_take]; omega)
      (by simp [List.length_take, List.length_drop]; omega)
      (by simp [List.length_take, List.length_drop]; omega)
      (by simp [List.length_take, List.length_drop]; omega)
      (by simp [List.length_take, List.length_drop]; omega)
    calc insertMarkers z (ns0 : Int) (ns1 : Int) (no0 : Int) (no1 : Int)
        = insertMarkers (z.take ns0 ++ (z.take (ns1 + 1)).drop ns0 ++
            (z.take no0).drop (ns1 + 1) ++ (z.take (no1 + 1)).drop no0 ++ z.drop (no1 + 1))
            (ns0 : Int) (ns1 : Int) (no0 : Int) (no1 : Int) := by rw [← hz]
      _ = _ := key
  · have hos : no1 < ns0 := by omega
    rw [if_neg hlt]
    have h1 : z.take no0 ++ (z.take (no1 + 1)).drop no0 = z.take (no1 + 1) :=
      take_chain z no0 (no1 + 1) (by omega)
    have h2 : z.take (no1 + 1) ++ (z.take ns0).drop (no1 + 1) = z.take ns0 :=
      take_chain z (no1 + 1) ns0 (by omega)
    have h3 : z.take ns0 ++ (z.take (ns1 + 1)).drop ns0 = z.take (ns1 + 1) :=
      take_chain z ns0 (ns1 + 1) (by omega)
    have h4 : z.take (ns1 + 1) ++ z.drop (ns1 + 1) = z := List.take_append_drop _ _
    have hz : z = z.take no0 ++ (z.take (no1 + 1)).drop no0 ++ (z.take ns0).drop (no1 + 1) ++
        (z.take (ns1 + 1)).drop ns0 ++ z.drop (ns1 + 1) := by
      rw [h1, h2, h3, h4]
    have key := insertMarkers_objFirst (z.take no0) ((z.take (no1 + 1)).drop no0)
      ((z.take ns0).drop (no1 + 1)) ((z.take (ns1 + 1)).drop ns0) (z.drop (ns1 + 1))
      ns0 ns1 no0 no1
      (by simp [List.length_take]; omega)
      (by simp [List.length_take, List.length_drop]; omega)
      (by simp [List.length_take, List.length_drop]; omega)
      (by simp [List.length_take, List.length_drop]; omega)
    calc insertMarkers z (ns0 : Int) (ns1 : Int) (no0 : Int) (no1 : Int)
        = insertMarkers (z.take no0 ++ (z.take (no1 + 1)).drop no0 ++
            (z.take ns0).drop (no1 + 1) ++ (z.take (ns1 + 1)).drop ns0 ++ z.drop (ns1 + 1))
            (ns0 : Int) (ns1 : Int) (no0 : Int) (no1 : Int) := by rw [← hz]
      _ = _ := key

/-- Claim C1: for every record whose subject span `[ns0, ns1]` and object
span `[no0, no1]` are disjoint and lie within the sentence, the marker
insertion performed by `load_data` yields the sentence decomposed so that
the first-starting span's markers sit at its original offsets (the prefix
before its opening marker is exactly the first `start` characters of the
original sentence) and the second-starting span's markers sit at
`original_start + 11` and `original_end + 1 + 11`; the substring strictly
between `[SUB]` and `[/SUB]` is `(z.take (ns1+1)).drop ns0`, which the
second conjunct identifies with the code's verbatim subject-entity
extraction `z[ns0 : ns1+1]`, and likewise for `[OBJ]`/`[/OBJ]` and the
object extraction. -/
theorem markers_wrap_entities (z : List Char) (ns0 ns1 no0 no1 : Nat)
    (hs : ns0 ≤ ns1) (ho : no0 ≤ no1) (hsl : ns1 < z.length) (hol : no1 < z.length)
    (hdisj : ns1 < no0 ∨ no1 < ns0) :
    (insertMarkers z (ns0 : Int) (ns1 : Int) (no0 : Int) (no1 : Int) =
      if ns0 < no0 then
        z.take ns0 ++ subOpen ++ (z.take (ns1 + 1)).drop ns0 ++ subClose ++
          (z.take no0).drop (ns1 + 1) ++ objOpen ++ (z.take (no1 + 1)).drop no0 ++ objClose ++
          z.drop (no1 + 1)
      else
        z.take no0 ++ objOpen ++ (z.take (no1 + 1)).drop no0 ++ objClose ++
          (z.take ns0).drop (no1 + 1) ++ subOpen ++ (z.take (ns1 + 1)).drop ns0 ++ subClose ++
          z.drop (ns1 + 1)) ∧
    pySlice z (ns0 : Int) ((ns1 : Int) + 1) = (z.take (ns1 + 1)).drop ns0 ∧
    pySlice z (no0 : Int) ((no1 : Int) + 1) = (z.take (no1 + 1)).drop no0 := by
  refine ⟨insertMarkers_spans z ns0 ns1 no0 no1 hs ho hsl hol hdisj, ?_, ?_⟩
  · rw [(by omega : ((ns1 : Int) + 1) = ((ns1 + 1 : Nat) : Int)), pySlice_natCast]
  · rw [(by omega : ((no1 : Int) + 1) = ((no1 + 1 : Nat) : Int)), pySlice_natCast]

/-- Witness for C1: the `Kim works at Acme` record, evaluated. -/
theorem markers_wrap_entities_witness :
    insertMarkers (("Kim works at Acme").data) ((0 : Nat) : Int) ((2 : Nat) : Int)
        ((13 : Nat) : Int) ((16 : Nat) : Int) =
      ("[SUB]Kim[/SUB] works at [OBJ]Acme[/OBJ]").data := by
  have h := (markers_wrap_entities (("Kim works at Acme").data) 0 2 13 16
    (by decide) (by decide) (by decide) (by decide) (Or.inl (by decide))).1
  rw [h]
  decide

/-- Claim C2: for every record whose subject and object spans are disjoint
and lie within the sentence, the marked sentence produced by `load_data`
is the original sentence with one occurrence of each of the four marker
strings inserted: deleting those four marker occurrences (concatenating
the five intervening pieces) yields exactly the original sentence. -/
theorem strip_markers_roundtrip (z : List Char) (ns0 ns1 no0 no1 : Nat)
    (hs : ns0 ≤ ns1) (ho : no0 ≤ no1) (hsl : ns1 < z.length) (hol : no1 < z.length)
    (hdisj : ns1 < no0 ∨ no1 < ns0) :
    ∃ p1 p2 p3 p4 p5 : List Char,
      (insertMarkers z (ns0 : Int) (ns1 : Int) (no0 : Int) (no1 : Int) =
          p1 ++ subOpen ++ p2 ++ subClose ++ p3 ++ objOpen ++ p4 ++ objClose ++ p5 ∨
        insertMarkers z (ns0 : Int) (ns1 : Int) (no0 : Int) (no1 : Int) =
          p1 ++ objOpen ++ p2 ++ objClose ++ p3 ++ subOpen ++ p4 ++ subClose ++ p5) ∧
      p1 ++ p2 ++ p3 ++ p4 ++ p5 = z := by
  have hkey := insertMarkers_spans z ns0 ns1 no0 no1 hs ho hsl hol hdisj
  by_cases hlt : ns0 < no0
  · rw [if_pos hlt] at hkey
    refine ⟨z.take ns0, (z.take (ns1 + 1)).drop ns0, (z.take no0).drop (ns1 + 1),
      (z.take (no1 + 1)).drop no0, z.drop (no1 + 1), Or.inl hkey, ?_⟩
    rw [take_chain z ns0 (ns1 + 1) (by omega), take_chain z (ns1 + 1) no0 (by omega),
      take_chain z no0 (no1 + 1) (by omega), List.take_append_drop]
  · rw [if_neg hlt] at hkey
    have hos : no1 < ns0 := by omega
    refine ⟨z.take no0, (z.take (no1 + 1)).drop no0, (z.take ns0).drop (no1 + 1),
      (z.take (ns1 + 1)).drop ns0, z.drop (ns1 + 1), Or.inr hkey, ?_⟩
    rw [take_chain z no0 (no1 + 1) (by omega), take_chain z (no1 + 1) ns0 (by omega),
      take_chain z ns0 (ns1 + 1) (by omega), List.take_append_drop]

/-- Witness for C2: the `Kim works at Acme` record, round-tripped. -/
theorem strip_markers_roundtrip_witness :
    ∃ p1 p2 p3 p4 p5 : List Char,
      (insertMarkers (("Kim works at Acme").data) ((0 : Nat) : Int) ((2 : Nat) : Int)
          ((13 : Nat) : Int) ((16 : Nat) : Int) =
          p1 ++ subOpen ++ p2 ++ subClose ++ p3 ++ objOpen ++ p4 ++ objClose ++ p5 ∨
        insertMarkers (("Kim works at Acme").data) ((0 : Nat) : Int) ((2 : Nat) : Int)
          ((13 : Nat) : Int) ((16 : Nat) : Int) =
          p1 ++ objOpen ++ p2 ++ objClose ++ p3 ++ subOpen ++ p4 ++ subClose ++ p5) ∧
      p1 ++ p2 ++ p3 ++ p4 ++ p5 = ("Kim works at Acme").data :=
  strip_markers_roundtrip (("Kim works at Acme").data) 0 2 13 16
    (by decide) (by decide) (by decide) (by decide) (Or.inl (by decide))

/-- Claim C5: on the concrete record with sentence `Kim works at Acme`,
subject `Kim` at `[0, 2]` of type `PER` and object `Acme` at `[13, 16]`
of type `ORG`, encoded in the Python-repr field format, `load_data`
produces the marked sentence `[SUB]Kim[/SUB] works at [OBJ]Acme[/OBJ]`. -/
theorem load_data_kim_acme :
    load_data
        [(("\x7b\x27word\x27: \x27Kim\x27, \x27start_idx\x27: 0, \x27end_idx\x27: 2, \x27type\x27: \x27PER\x27\x7d").data,
          ("\x7b\x27word\x27: \x27Acme\x27, \x27start_idx\x27: 13, \x27end_idx\x27: 16, \x27type\x27: \x27ORG\x27\x7d").data,
          ("Kim works at Acme").data)] =
      .ok [{ sub_entity := ("Kim").data
             obj_entity := ("Acme").data
             sub_type := ("PER").data
             obj_type := ("ORG").data
             sub_idx := (0, 2)
             obj_idx := (13, 16)
             sentence := ("[SUB]Kim[/SUB] works at [OBJ]Acme[/OBJ]").data }] := by
  decide

lemma mem_add_special_tokens_of_mem_vocab (v ts : List (List Char)) (a : List Char)
    (ha : a ∈ v) : a ∈ add_special_tokens v ts := by
  induction ts generalizing v with
  | nil => exact ha
  | cons t ts ih =>
      unfold add_special_tokens
      simp only [List.foldl_cons]
      by_cases ht : t ∈ v
      · rw [if_pos ht]
        exact ih v ha
      · rw [if_neg ht]
        exact ih (v ++ [t]) (List.mem_append_left _ ha)

lemma mem_add_special_tokens_of_mem_toks (v ts : List (List Char)) (t : List Char)
    (ht : t ∈ ts) : t ∈ add_special_tokens v ts := by
  induction ts generalizing v with
  | nil => cases ht
  | cons u ts ih =>
      unfold add_special_tokens
      simp only [List.foldl_cons]
      rcases List.mem_cons.mp ht with rfl | hmem
      · by_cases hu : t ∈ v
        · rw [if_pos hu]
          exact mem_add_special_tokens_of_mem_vocab v ts t hu
        · rw [if_neg hu]
          exact mem_add_special_tokens_of_mem_vocab (v ++ [t]) ts t
            (List.mem_append_right _ (List.mem_singleton.mpr rfl))
      · by_cases hu : u ∈ v
        · rw [if_pos hu]
          exact ih v hmem
        · rw [if_neg hu]
          exact ih (v ++ [u]) hmem

lemma add_special_tokens_eq_of_all_mem (v ts : List (List Char))
    (h : ∀ t ∈ ts, t ∈ v) : add_special_tokens v ts = v := by
  induction ts with
  | nil => rfl
  | cons t ts ih =>
      unfold add_special_tokens
      simp only [List.foldl_cons]
      rw [if_pos (h t (List.mem_cons_self t ts))]
      exact ih fun u hu => h u (List.mem_cons_of_mem t hu)

/-- Claim C8: registering the boundary markers is idempotent — running the
`add_special_tokens` registration of the four markers a second time
leaves the vocabulary exactly as the first call left it (so no entry is
duplicated and the size does not change further). -/
theorem register_markers_idempotent (vocab : List (List Char)) :
    register_markers (register_markers vocab) = register_markers vocab := by
  unfold register_markers
  apply add_special_tokens_eq_of_all_mem
  intro t ht
  exact mem_add_special_tokens_of_mem_toks vocab _ t ht

/-- Claim C7: label conversion fails with the lookup error (`KeyError`;
the spec's `UnknownLabelError`) whenever some label string in the list is
absent from the label-to-index table, and when every label is present it
returns the labels' numeric indices in input order. -/
theorem label_to_num_spec (table : List (List Char × Nat)) (labels : List (List Char)) :
    ((∃ l ∈ labels, dictLookup table l = none) →
      label_to_num table labels = .error .keyError) ∧
    ((∀ l ∈ labels, dictLookup table l ≠ none) →
      label_to_num table labels = .ok (labels.filterMap (dictLookup table))) := by
  induction labels with
  | nil =>
      constructor
      · rintro ⟨l, hl, -⟩
        cases hl
      · intro
        rfl
  | cons l rest ih =>
      constructor
      · rintro ⟨a, ha, hnone⟩
        unfold label_to_num
        rcases List.mem_cons.mp ha with rfl | hmem
        · rw [hnone]
          rfl
        · cases hl : dictLookup table l with
          | none => rfl
          | some n =>
              rw [ih.1 ⟨a, hmem, hnone⟩]
              rfl
      · intro hall
        unfold label_to_num
        cases hl : dictLookup table l with
        | none => exact absurd hl (hall l (List.mem_cons_self l rest))
        | some n =>
            rw [ih.2 fun u hu => hall u (List.mem_cons_of_mem l hu)]
            simp only [List.filterMap_cons, hl]
            rfl

/-- Witness for C7: a one-entry table and a present label. -/
theorem label_to_num_spec_witness :
    label_to_num [(("no_relation").data, 0)] [("no_relation").data] = .ok [0] := by
  have h := (label_to_num_spec [(("no_relation").data, 0)] [("no_relation").data]).2
    (by decide)
  rw [h]
  decide

lemma bindE_ok {α β : Type} (a : α) (f : α → Except PyErr β) :
    (Except.ok a >>= f) = f a := rfl

lemma bindE_err {α β : Type} (e : PyErr) (f : α → Except PyErr β) :
    ((Except.error e : Except PyErr α) >>= f) = Except.error e := rfl

lemma readVar_some (v : Int) : readVar (some v) = .ok v := rfl

lemma scanSubStart_ok_obj (x : List Char) (st : RowVars) (i : Nat) (st' : RowVars)
    (h : scanSubStart x st i = .ok st') :
    st'.obj_start = st.obj_start ∧ st'.obj_end = st.obj_end := by
  unfold scanSubStart at h
  split at h
  · cases he : extractInt x (i + 12) with
    | error e =>
        rw [he, bindE_err] at h
        simp at h
    | ok v =>
        rw [he, bindE_ok] at h
        cases h
        exact ⟨rfl, rfl⟩
  · cases h
    exact ⟨rfl, rfl⟩

lemma scanSubEnd_ok_obj (x : List Char) (st : RowVars) (i : Nat) (st' : RowVars)
    (h : scanSubEnd x st i = .ok st') :
    st'.obj_start = st.obj_start ∧ st'.obj_end = st.obj_end := by
  unfold scanSubEnd at h
  split at h
  · cases he : extractInt x (i + 10) with
    | error e =>
        rw [he, bindE_err] at h
        simp at h
    | ok v =>
        rw [he, bindE_ok] at h
        cases h
        exact ⟨rfl, rfl⟩
  · cases h
    exact ⟨rfl, rfl⟩

lemma scanSubStart_nomatch (x : List Char) (st : RowVars) (i : Nat)
    (h : pySlice x (i : Int) ((i : Int) + 9) ≠ startIdxKey) :
    scanSubStart x st i = .ok st := by
  unfold scanSubStart
  rw [if_neg h]
  rfl

lemma scanSubEnd_nomatch (x : List Char) (st : RowVars) (i : Nat)
    (h : pySlice x (i : Int) ((i : Int) + 7) ≠ endIdxKey) :
    scanSubEnd x st i = .ok st := by
  unfold scanSubEnd
  rw [if_neg h]
  rfl

lemma scanObjStart_nomatch (y : List Char) (st : RowVars) (i : Nat)
    (h : pySlice y (i : Int) ((i : Int) + 9) ≠ startIdxKey) :
    scanObjStart y st i = .ok st := by
  unfold scanObjStart
  rw [if_neg h]
  rfl

lemma scanObjEnd_nomatch (y : List Char) (st : RowVars) (i : Nat)
    (h : pySlice y (i : Int) ((i : Int) + 7) ≠ endIdxKey) :
    scanObjEnd y st i = .ok st := by
  unfold scanObjEnd
  rw [if_neg h]
  rfl

lemma scanAt_ok_obj (x y : List Char) (st : RowVars) (i : Nat) (st' : RowVars)
    (hno9 : pySlice y (i : Int) ((i : Int) + 9) ≠ startIdxKey)
    (hno7 : pySlice y (i : Int) ((i : Int) + 7) ≠ endIdxKey)
    (h : scanAt x y st i = .ok st') :
    st'.obj_start = st.obj_start ∧ st'.obj_end = st.obj_end := by
  unfold scanAt at h
  cases h1 : scanSubStart x st i with
  | error e =>
      rw [h1, bindE_err] at h
      simp at h
  | ok s1 =>
      rw [h1, bindE_ok] at h
      cases h2 : scanSubEnd x s1 i with
      | error e =>
          rw [h2, bindE_err] at h
          simp at h
      | ok s2 =>
          rw [h2, bindE_ok, scanObjStart_nomatch y s2 i hno9, bindE_ok,
            scanObjEnd_nomatch y s2 i hno7] at h
          injection h with heq
          rw [← heq]
          obtain ⟨ha, hb⟩ := scanSubStart_ok_obj x st i s1 h1
          obtain ⟨hc, hd⟩ := scanSubEnd_ok_obj x s1 i s2 h2
          exact ⟨hc.trans ha, hd.trans hb⟩

lemma scanFold_preserves_obj (x y : List Char) (L : List Nat) (st st1 : RowVars)
    (hno : ∀ i ∈ L,
      pySlice y (i : Int) ((i : Int) + 9) ≠ startIdxKey ∧
      pySlice y (i : Int) ((i : Int) + 7) ≠ endIdxKey)
    (h : L.foldlM (scanAt x y) st = .ok st1) :
    st1.obj_start = st.obj_start ∧ st1.obj_end = st.obj_end := by
  induction L generalizing st with
  | nil =>
      cases h
      exact ⟨rfl, rfl⟩
  | cons i L ih =>
      rw [List.foldlM_cons] at h
      cases hstep : scanAt x y st i with
      | error e =>
          rw [hstep, bindE_err] at h
          simp at h
      | ok s1 =>
          rw [hstep, bindE_ok] at h
          have hcur := scanAt_ok_obj x y st i s1
            (hno i (List.mem_cons_self i L)).1 (hno i (List.mem_cons_self i L)).2 hstep
          have hrest := ih s1 (fun j hj => hno j (List.mem_cons_of_mem i hj)) h
          exact ⟨hrest.1.trans hcur.1, hrest.2.trans hcur.2⟩

/-- Claim C9: the key-marker scan iterates positions only up to the length
of the subject field while testing both entity fields, so when the object
field's `start_idx`/`end_idx` key markers occur only at positions at or
beyond the subject field's length, they are never matched: whenever the
scan of such a row succeeds, the object-offset locals keep exactly the
values they had before the row (they are not taken from this row's own
object field). -/
theorem object_markers_beyond_subject_ignored (x y : List Char) (st st1 : RowVars)
    (hno : ∀ i < x.length,
      pySlice y (i : Int) ((i : Int) + 9) ≠ startIdxKey ∧
      pySlice y (i : Int) ((i : Int) + 7) ≠ endIdxKey)
    (hok : scanRow x y st = .ok st1) :
    st1.obj_start = st.obj_start ∧ st1.obj_end = st.obj_end := by
  unfold scanRow at hok
  exact scanFold_preserves_obj x y (List.range x.length) st st1
    (fun i hi => hno i (List.mem_range.mp hi)) hok

/-- Witness for C9: the subject field carries both key markers, the object
field's markers sit entirely beyond the subject field's length, and the
scan leaves both object offsets unassigned while the subject offsets are
parsed. -/
theorem object_markers_beyond_subject_ignored_witness :
    (⟨some 4, some 6, none, none⟩ : RowVars).obj_start = (initVars).obj_start ∧
    (⟨some 4, some 6, none, none⟩ : RowVars).obj_end = (initVars).obj_end :=
  object_markers_beyond_subject_ignored
    (("start_idx\x27: 4, \x27end_idx\x27: 6").data)
    (("                           start_idx\x27: 8").data)
    initVars ⟨some 4, some 6, none, none⟩
    (by decide) (by decide)

lemma readVar_none : readVar none = .error .nameError := rfl

lemma scanAt_nomatch_id (x y : List Char) (st : RowVars) (i : Nat)
    (h1 : pySlice x (i : Int) ((i : Int) + 9) ≠ startIdxKey)
    (h2 : pySlice x (i : Int) ((i : Int) + 7) ≠ endIdxKey)
    (h3 : pySlice y (i : Int) ((i : Int) + 9) ≠ startIdxKey)
    (h4 : pySlice y (i : Int) ((i : Int) + 7) ≠ endIdxKey) :
    scanAt x y st i = .ok st := by
  unfold scanAt
  rw [scanSubStart_nomatch x st i h1, bindE_ok, scanSubEnd_nomatch x st i h2, bindE_ok,
    scanObjStart_nomatch y st i h3, bindE_ok]
  exact scanObjEnd_nomatch y st i h4

lemma scanFold_id (x y : List Char) (L : List Nat) (st : RowVars)
    (hno : ∀ i ∈ L,
      pySlice x (i : Int) ((i : Int) + 9) ≠ startIdxKey ∧
      pySlice x (i : Int) ((i : Int) + 7) ≠ endIdxKey ∧
      pySlice y (i : Int) ((i : Int) + 9) ≠ startIdxKey ∧
      pySlice y (i : Int) ((i : Int) + 7) ≠ endIdxKey) :
    L.foldlM (scanAt x y) st = .ok st := by
  induction L with
  | nil => rfl
  | cons i L ih =>
      obtain ⟨ha, hb, hc, hd⟩ := hno i (List.mem_cons_self i L)
      rw [List.foldlM_cons, scanAt_nomatch_id x y st i ha hb hc hd, bindE_ok]
      exact ih fun j hj => hno j (List.mem_cons_of_mem i hj)

lemma scanRow_nomatch_id (x y : List Char) (st : RowVars)
    (hno : ∀ i < x.length,
      pySlice x (i : Int) ((i : Int) + 9) ≠ startIdxKey ∧
      pySlice x (i : Int) ((i : Int) + 7) ≠ endIdxKey ∧
      pySlice y (i : Int) ((i : Int) + 9) ≠ startIdxKey ∧
      pySlice y (i : Int) ((i : Int) + 7) ≠ endIdxKey) :
    scanRow x y st = .ok st := by
  unfold scanRow
  exact scanFold_id x y (List.range x.length) st fun i hi => hno i (List.mem_range.mp hi)

lemma processRow_of_parts (st st1 : RowVars) (x y z : List Char) (tx ty : List Char)
    (s0 s1 o0 o1 : Int)
    (htx : parseType x = .ok tx) (hty : parseType y = .ok ty)
    (hscan : scanRow x y st = .ok st1)
    (h0 : st1.sub_start = some s0) (h1 : st1.sub_end = some s1)
    (h2 : st1.obj_start = some o0) (h3 : st1.obj_end = some o1) :
    processRow st x y z = .ok (st1,
      { sub_entity := pySlice z s0 (s1 + 1)
        obj_entity := pySlice z o0 (o1 + 1)
        sub_type := tx
        obj_type := ty
        sub_idx := (s0, s1)
        obj_idx := (o0, o1)
        sentence := insertMarkers z s0 s1 o0 o1 }) := by
  unfold processRow
  rw [htx, bindE_ok, hty, bindE_ok, hscan, bindE_ok, h0, readVar_some, bindE_ok,
    h1, readVar_some, bindE_ok, h2, readVar_some, bindE_ok, h3, readVar_some, bindE_ok]
  rfl

lemma processRow_ok_inv (st : RowVars) (x y z : List Char) (st' : RowVars) (r : Row)
    (h : processRow st x y z = .ok (st', r)) :
    st'.sub_start = some r.sub_idx.1 ∧ st'.sub_end = some r.sub_idx.2 ∧
    st'.obj_start = some r.obj_idx.1 ∧ st'.obj_end = some r.obj_idx.2 := by
  unfold processRow at h
  cases htx : parseType x with
  | error e => rw [htx, bindE_err] at h; simp at h
  | ok tx =>
  rw [htx, bindE_ok] at h
  cases hty : parseType y with
  | error e => rw [hty, bindE_err] at h; simp at h
  | ok ty =>
  rw [hty, bindE_ok] at h
  cases hsc : scanRow x y st with
  | error e => rw [hsc, bindE_err] at h; simp at h
  | ok s1 =>
  rw [hsc, bindE_ok] at h
  cases h0 : s1.sub_start with
  | none => rw [h0, readVar_none, bindE_err] at h; simp at h
  | some a =>
  rw [h0, readVar_some, bindE_ok] at h
  cases h1 : s1.sub_end with
  | none => rw [h1, readVar_none, bindE_err] at h; simp at h
  | some b =>
  rw [h1, readVar_some, bindE_ok] at h
  cases h2 : s1.obj_start with
  | none => rw [h2, readVar_none, bindE_err] at h; simp at h
  | some c =>
  rw [h2, readVar_some, bindE_ok] at h
  cases h3 : s1.obj_end with
  | none => rw [h3, readVar_none, bindE_err] at h; simp at h
  | some d =>
  rw [h3, readVar_some, bindE_ok] at h
  injection h with h'
  rw [Prod.mk.injEq] at h'
  obtain ⟨hst, hrec⟩ := h'
  rw [← hst, ← hrec]
  exact ⟨h0, h1, h2, h3⟩

/-- Claim C10: the offset locals persist across rows. For a dataset whose
first row processes successfully and whose second row's entity fields
contain no key marker within the scanned range (but still parse for the
entity type), `load_data` raises no error on the second row: it silently
produces an annotated record for it built from the offsets parsed for the
FIRST row. When such a marker-free row is instead the very first row,
processing aborts with the unbound-local error (`NameError`), not a typed
parsing error. -/
theorem offsets_persist_across_rows
    (x1 y1 z1 x2 y2 z2 : List Char) (st1 : RowVars) (r1 : Row) (t2x t2y : List Char)
    (hrow1 : processRow initVars x1 y1 z1 = .ok (st1, r1))
    (hnm : ∀ i < x2.length,
      pySlice x2 (i : Int) ((i : Int) + 9) ≠ startIdxKey ∧
      pySlice x2 (i : Int) ((i : Int) + 7) ≠ endIdxKey ∧
      pySlice y2 (i : Int) ((i : Int) + 9) ≠ startIdxKey ∧
      pySlice y2 (i : Int) ((i : Int) + 7) ≠ endIdxKey)
    (htx : parseType x2 = .ok t2x) (hty : parseType y2 = .ok t2y) :
    load_data [(x1, y1, z1), (x2, y2, z2)] =
      .ok [r1,
        { sub_entity := pySlice z2 r1.sub_idx.1 (r1.sub_idx.2 + 1)
          obj_entity := pySlice z2 r1.obj_idx.1 (r1.obj_idx.2 + 1)
          sub_type := t2x
          obj_type := t2y
          sub_idx := r1.sub_idx
          obj_idx := r1.obj_idx
          sentence := insertMarkers z2 r1.sub_idx.1 r1.sub_idx.2 r1.obj_idx.1 r1.obj_idx.2 }] ∧
    load_data [(x2, y2, z2)] = .error .nameError := by
  obtain ⟨hs0, hs1, ho0, ho1⟩ := processRow_ok_inv initVars x1 y1 z1 st1 r1 hrow1
  have hscan2 : scanRow x2 y2 st1 = .ok st1 := scanRow_nomatch_id x2 y2 st1 hnm
  have hrow2 := processRow_of_parts st1 st1 x2 y2 z2 t2x t2y
    r1.sub_idx.1 r1.sub_idx.2 r1.obj_idx.1 r1.obj_idx.2 htx hty hscan2 hs0 hs1 ho0 ho1
  constructor
  · simp only [load_data, loadRows, hrow1, bindE_ok, hrow2]
    rfl
  · have hpr : processRow initVars x2 y2 z2 = .error .nameError := by
      unfold processRow
      rw [htx, bindE_ok, hty, bindE_ok, scanRow_nomatch_id x2 y2 initVars hnm, bindE_ok]
      rfl
    simp only [load_data, loadRows, hpr, bindE_err]

/-- Witness for C10: the well-formed `Kim works at Acme` row followed by a
marker-free row; the second row is annotated silently with the first
row's offsets `(0,2)`/`(13,16)` (slicing `Roh cited Moon` into `Roh` and
`n` and inserting markers there), and the marker-free row alone aborts
with the unbound-local error. -/
theorem offsets_persist_across_rows_witness :
    load_data
        [(("\x7b\x27word\x27: \x27Kim\x27, \x27start_idx\x27: 0, \x27end_idx\x27: 2, \x27type\x27: \x27PER\x27\x7d").data,
          ("\x7b\x27word\x27: \x27Acme\x27, \x27start_idx\x27: 13, \x27end_idx\x27: 16, \x27type\x27: \x27ORG\x27\x7d").data,
          ("Kim works at Acme").data),
         (("\x7b\x27word\x27: \x27Roh\x27, \x27type\x27: \x27PER\x27\x7d").data,
          ("\x7b\x27word\x27: \x27Moon\x27, \x27type\x27: \x27ORG\x27\x7d").data,
          ("Roh cited Moon").data)] =
      .ok [{ sub_entity := ("Kim").data
             obj_entity := ("Acme").data
             sub_type := ("PER").data
             obj_type := ("ORG").data
             sub_idx := (0, 2)
             obj_idx := (13, 16)
             sentence := ("[SUB]Kim[/SUB] works at [OBJ]Acme[/OBJ]").data },
           { sub_entity := ("Roh").data
             obj_entity := ("n").data
             sub_type := ("PER").data
             obj_type := ("ORG").data
             sub_idx := (0, 2)
             obj_idx := (13, 16)
             sentence := ("[SUB]Roh[/SUB] cited Moo[OBJ]n[/OBJ]").data }] ∧
    load_data
        [(("\x7b\x27word\x27: \x27Roh\x27, \x27type\x27: \x27PER\x27\x7d").data,
          ("\x7b\x27word\x27: \x27Moon\x27, \x27type\x27: \x27ORG\x27\x7d").data,
          ("Roh cited Moon").data)] = .error .nameError := by
  have h := offsets_persist_across_rows
    (("\x7b\x27word\x27: \x27Kim\x27, \x27start_idx\x27: 0, \x27end_idx\x27: 2, \x27type\x27: \x27PER\x27\x7d").data)
    (("\x7b\x27word\x27: \x27Acme\x27, \x27start_idx\x27: 13, \x27end_idx\x27: 16, \x27type\x27: \x27ORG\x27\x7d").data)
    (("Kim works at Acme").data)
    (("\x7b\x27word\x27: \x27Roh\x27, \x27type\x27: \x27PER\x27\x7d").data)
    (("\x7b\x27word\x27: \x27Moon\x27, \x27type\x27: \x27ORG\x27\x7d").data)
    (("Roh cited Moon").data)
    ⟨some 0, some 2, some 13, some 16⟩
    { sub_entity := ("Kim").data
      obj_entity := ("Acme").data
      sub_type := ("PER").data
      obj_type := ("ORG").data
      sub_idx := (0, 2)
      obj_idx := (13, 16)
      sentence := ("[SUB]Kim[/SUB] works at [OBJ]Acme[/OBJ]").data }
    (("PER").data) (("ORG").data)
    (by decide) (by decide) (by decide) (by decide)
  refine ⟨?_, h.2⟩
  rw [h.1]
  decide

/-- Counterexample to C3: the second record's subject field lacks the
`end_idx` key marker entirely, yet `load_data` raises no error at all —
it succeeds, silently reusing the previous row's `end_idx` value `2` and
truncating `Bobby` to `Bob`. This contradicts the claim that such a row
fails with a `MalformedSpanError` and does not succeed. -/
theorem missing_marker_not_rejected :
    load_data
        [(("\x7b\x27word\x27: \x27Kim\x27, \x27start_idx\x27: 0, \x27end_idx\x27: 2, \x27type\x27: \x27PER\x27\x7d").data,
          ("\x7b\x27word\x27: \x27Acme\x27, \x27start_idx\x27: 13, \x27end_idx\x27: 16, \x27type\x27: \x27ORG\x27\x7d").data,
          ("Kim works at Acme").data),
         (("\x7b\x27word\x27: \x27Bobby\x27, \x27start_idx\x27: 0, \x27type\x27: \x27PER\x27\x7d").data,
          ("\x7b\x27word\x27: \x27Acme\x27, \x27start_idx\x27: 10, \x27end_idx\x27: 13, \x27type\x27: \x27ORG\x27\x7d").data,
          ("Bobby and Acme").data)] =
      .ok [{ sub_entity := ("Kim").data
             obj_entity := ("Acme").data
             sub_type := ("PER").data
             obj_type := ("ORG").data
             sub_idx := (0, 2)
             obj_idx := (13, 16)
             sentence := ("[SUB]Kim[/SUB] works at [OBJ]Acme[/OBJ]").data },
           { sub_entity := ("Bob").data
             obj_entity := ("Acme").data
             sub_type := ("PER").data
             obj_type := ("ORG").data
             sub_idx := (0, 2)
             obj_idx := (10, 13)
             sentence := ("[SUB]Bob[/SUB]by and [OBJ]Acme[/OBJ]").data }] := by
  decide

/-- Claim C3 (amended): the code has no `MalformedSpanError`. When a
`start_idx` key marker is matched (say first at position `i`, earlier
positions leaving the state untouched) and the text after the key's colon
up to the next comma is not a valid integer, the row's scan aborts the
whole load with Python's untyped `ValueError` (no row id attached); a
field that merely LACKS a key marker raises no parsing error at all (see
the counterexample — the stale previous offsets are used silently, or an
unbound-local error occurs on the first row). -/
theorem scan_bad_int_raises_value_error (x y : List Char) (st : RowVars) (i : Nat)
    (hi : i < x.length)
    (hprev : ∀ (s : RowVars) (j : Nat), j < i → scanAt x y s j = .ok s)
    (hmatch : pySlice x (i : Int) ((i : Int) + 9) = startIdxKey)
    (hbad : extractInt x (i + 12) = .error .valueError) :
    scanRow x y st = .error .valueError := by
  unfold scanRow
  rw [List.range_eq_range']
  have hsplit : List.range' 0 x.length = List.range' 0 i ++ List.range' i (x.length - i) := by
    have h := List.range'_append 0 i (x.length - i) 1
    simp only [Nat.one_mul, Nat.zero_add] at h
    rw [(by omega : x.length - i + i = x.length)] at h
    exact h.symm
  rw [hsplit, List.foldlM_append]
  have hfirst : ∀ L : List Nat, (∀ j ∈ L, j < i) → L.foldlM (scanAt x y) st = .ok st := by
    intro L hL
    induction L with
    | nil => rfl
    | cons j L ih =>
        rw [List.foldlM_cons, hprev st j (hL j (List.mem_cons_self j L)), bindE_ok]
        exact ih fun k hk => hL k (List.mem_cons_of_mem j hk)
  rw [hfirst (List.range' 0 i)
    (fun j hj => by
      have := List.mem_range'_1.mp hj
      omega), bindE_ok]
  rw [(by omega : x.length - i = (x.length - i - 1) + 1), List.range'_succ, List.foldlM_cons]
  have hAt : scanAt x y st i = .error .valueError := by
    unfold scanAt scanSubStart
    rw [if_pos hmatch, hbad]
    rfl
  rw [hAt, bindE_err]

/-- Witness for C3 (amended): a subject field whose `start_idx` value text
is `abc`; the scan aborts with `ValueError`. -/
theorem scan_bad_int_raises_value_error_witness :
    scanRow
        (("\x7b\x27word\x27: \x27Kim\x27, \x27start_idx\x27: abc, \x27end_idx\x27: 2, \x27type\x27: \x27PER\x27\x7d").data)
        (("\x7b\x27word\x27: \x27Acme\x27, \x27start_idx\x27: 13, \x27end_idx\x27: 16, \x27type\x27: \x27ORG\x27\x7d").data)
        initVars = .error .valueError := by
  apply scan_bad_int_raises_value_error _ _ _ 17
  · decide
  · intro s j hj
    interval_cases j <;> rfl
  · decide
  · decide

/-- Counterexample to C4: subject span `[0, 3]` and object span `[2, 5]`
of `abcdef` intersect, yet annotation does not fail with any error — it
produces a (garbled) marked sentence. -/
theorem overlap_not_rejected :
    load_data
        [(("\x7b\x27word\x27: \x27abcd\x27, \x27start_idx\x27: 0, \x27end_idx\x27: 3, \x27type\x27: \x27PER\x27\x7d").data,
          ("\x7b\x27word\x27: \x27cdef\x27, \x27start_idx\x27: 2, \x27end_idx\x27: 5, \x27type\x27: \x27ORG\x27\x7d").data,
          ("abcdef").data)] =
      .ok [{ sub_entity := ("abcd").data
             obj_entity := ("cdef").data
             sub_type := ("PER").data
             obj_type := ("ORG").data
             sub_idx := (0, 3)
             obj_idx := (2, 5)
             sentence := ("[SUB]abcd[/SU[OBJ]B]ef[/OBJ]").data }] := by
  decide

/-- Claim C4 (amended): the code performs no overlap check. For every
record that parses (types extracted, offsets bound by the scan), even
when the subject range `[s0, s1]` and object range `[o0, o1]` intersect,
annotation succeeds and returns a marked sentence built by the same
`+11`-offset insertion — no `OverlappingSpanError` (or any error) is
raised. -/
theorem overlapping_spans_still_annotated (st st1 : RowVars) (x y z : List Char)
    (tx ty : List Char) (s0 s1 o0 o1 : Int)
    (htx : parseType x = .ok tx) (hty : parseType y = .ok ty)
    (hscan : scanRow x y st = .ok st1)
    (h0 : st1.sub_start = some s0) (h1 : st1.sub_end = some s1)
    (h2 : st1.obj_start = some o0) (h3 : st1.obj_end = some o1)
    (_hov : o0 ≤ s1 ∧ s0 ≤ o1) :
    processRow st x y z = .ok (st1,
      { sub_entity := pySlice z s0 (s1 + 1)
        obj_entity := pySlice z o0 (o1 + 1)
        sub_type := tx
        obj_type := ty
        sub_idx := (s0, s1)
        obj_idx := (o0, o1)
        sentence := insertMarkers z s0 s1 o0 o1 }) :=
  processRow_of_parts st st1 x y z tx ty s0 s1 o0 o1 htx hty hscan h0 h1 h2 h3

/-- Witness for C4 (amended): the intersecting `abcdef` record annotated
without error into a garbled marked sentence. -/
theorem overlapping_spans_still_annotated_witness :
    processRow initVars
        (("\x7b\x27word\x27: \x27abcd\x27, \x27start_idx\x27: 0, \x27end_idx\x27: 3, \x27type\x27: \x27PER\x27\x7d").data)
        (("\x7b\x27word\x27: \x27cdef\x27, \x27start_idx\x27: 2, \x27end_idx\x27: 5, \x27type\x27: \x27ORG\x27\x7d").data)
        (("abcdef").data) =
      .ok (⟨some 0, some 3, some 2, some 5⟩,
        { sub_entity := ("abcd").data
          obj_entity := ("cdef").data
          sub_type := ("PER").data
          obj_type := ("ORG").data
          sub_idx := (0, 3)
          obj_idx := (2, 5)
          sentence := ("[SUB]abcd[/SU[OBJ]B]ef[/OBJ]").data }) := by
  have h := overlapping_spans_still_annotated initVars ⟨some 0, some 3, some 2, some 5⟩
    (("\x7b\x27word\x27: \x27abcd\x27, \x27start_idx\x27: 0, \x27end_idx\x27: 3, \x27type\x27: \x27PER\x27\x7d").data)
    (("\x7b\x27word\x27: \x27cdef\x27, \x27start_idx\x27: 2, \x27end_idx\x27: 5, \x27type\x27: \x27ORG\x27\x7d").data)
    (("abcdef").data)
    (("PER").data) (("ORG").data) 0 3 2 5
    (by decide) (by decide) (by decide) (by decide) (by decide) (by decide) (by decide)
    (by decide)
  rw [h]
  decide

lemma pyGet_lt (l : List (List Char)) (i : Nat) (h : i < l.length) :
    pyGet l i = .ok (l.get ⟨i, h⟩) := by
  unfold pyGet
  rw [dif_pos h]

lemma pyGet_ge (l : List (List Char)) (i : Nat) (h : l.length ≤ i) :
    pyGet l i = .error .indexError := by
  unfold pyGet
  rw [dif_neg (by omega)]

lemma foldlM_unit_ok {f : Unit → Nat → Except PyErr Unit} (L : List Nat)
    (h : ∀ i ∈ L, f () i = .ok ()) : L.foldlM f () = .ok () := by
  induction L with
  | nil => rfl
  | cons i L ih =>
      rw [List.foldlM_cons, h i (List.mem_cons_self i L), bindE_ok]
      exact ih fun j hj => h j (List.mem_cons_of_mem i hj)

lemma decodeCheck_ok (sentences : List (List Char)) (enc : List Char → List Nat)
    (dec : List Nat → List Char) (h : 10 ≤ sentences.length) :
    decodeCheck sentences enc dec = .ok () := by
  unfold decodeCheck
  apply foldlM_unit_ok
  intro i hi
  have hi10 : i < 10 := List.mem_range.mp hi
  rw [pyGet_lt sentences i (by omega), bindE_ok]
  rfl

lemma decodeCheck_err (sentences : List (List Char)) (enc : List Char → List Nat)
    (dec : List Nat → List Char) (h : sentences.length < 10) :
    decodeCheck sentences enc dec = .error .indexError := by
  unfold decodeCheck
  rw [List.range_eq_range']
  have hsplit : List.range' 0 10 =
      List.range' 0 sentences.length ++ List.range' sentences.length (10 - sentences.length) := by
    have h10 := List.range'_append 0 sentences.length (10 - sentences.length) 1
    simp only [Nat.one_mul, Nat.zero_add] at h10
    rw [(by omega : 10 - sentences.length + sentences.length = 10)] at h10
    exact h10.symm
  rw [hsplit, List.foldlM_append]
  have hfirst : (List.range' 0 sentences.length).foldlM
      (fun _ i => do
        let s ← pyGet sentences i
        let _ := dec (enc s)
        pure ()) () = .ok () := by
    apply foldlM_unit_ok
    intro i hi
    have := List.mem_range'_1.mp hi
    rw [pyGet_lt sentences i (by omega), bindE_ok]
    rfl
  rw [hfirst, bindE_ok,
    (by omega : 10 - sentences.length = (10 - sentences.length - 1) + 1),
    List.range'_succ, List.foldlM_cons,
    pyGet_ge sentences sentences.length (le_refl _), bindE_err, bindE_err]

/-- Counterexample to C6: on a one-row dataset the decode diagnostic's
`for i in range(10)` indexing raises `IndexError`, so `tokenized_dataset`
aborts instead of returning the encoded batch — the round-trip check is
not fail-open. -/
theorem decode_check_aborts :
    tokenized_dataset [("hi").data] (fun s => [s.length]) (fun _ => []) =
      .error .indexError := by
  decide

/-- Claim C6 (amended): the decode diagnostic runs unguarded inside
`tokenized_dataset`. On datasets with at least 10 rows the diagnostic
completes and the encoded batch is returned, but on datasets with fewer
than 10 rows the diagnostic's indexing raises `IndexError` and
`tokenized_dataset` aborts without returning the batch (the check is
fail-closed, not fail-open). -/
theorem tokenized_dataset_not_fail_open (sentences : List (List Char))
    (enc : List Char → List Nat) (dec : List Nat → List Char) :
    (10 ≤ sentences.length →
      tokenized_dataset sentences enc dec = .ok (sentences.map enc)) ∧
    (sentences.length < 10 →
      tokenized_dataset sentences enc dec = .error .indexError) := by
  constructor
  · intro h
    unfold tokenized_dataset
    rw [decodeCheck_ok sentences enc dec h, bindE_ok]
    rfl
  · intro h
    unfold tokenized_dataset
    rw [decodeCheck_err sentences enc dec h, bindE_err]

/-- Witness for C6 (amended): a 10-row batch is returned; a 1-row batch
aborts with `IndexError`. -/
theorem tokenized_dataset_not_fail_open_witness :
    tokenized_dataset (List.replicate 10 (("a").data)) (fun s => [s.length]) (fun _ => []) =
      .ok (List.replicate 10 [1]) ∧
    tokenized_dataset [("a").data] (fun s => [s.length]) (fun _ => []) =
      .error .indexError := by
  constructor
  · have h := (tokenized_dataset_not_fail_open (List.replicate 10 (("a").data))
      (fun s => [s.length]) (fun _ => [])).1 (by decide)
    rw [h]
    decide
  · exact (tokenized_dataset_not_fail_open [("a").data]
      (fun s => [s.length]) (fun _ => [])).2 (by decide)
